import Mathlib

/-!
Verification of the session core of the baetyl-broker repository
(`src/session/session.go`), via a shallow embedding in Lean 4.

Go maps (`map[string]mqtt.QOS`) are embedded as association lists with
unique keys; the session's runtime object is a `SessionState` record
holding the persisted `Info`, the subscription trie, the per-session view
of the topic-exchange bindings, the ack cache and the durable record
stored for this session id.  Operations that can hit a storage failure
take an explicit `pfail : Bool` flag standing for "the bucket write or
delete returned an error"; the Go code only logs such errors.
-/

namespace Session

/-- QoS levels (`mqtt.QOS`): 0 = best effort, ≥ 1 = guaranteed. -/
abbrev QOS := Nat

/-- An MQTT message (`*mqtt.Message`); only its identity matters here. -/
structure Message where
  payload : String
deriving DecidableEq, Repr

/-- Lookup in an association list embedding a Go map (first match). -/
def mapLookup (k : String) : List (String × QOS) → Option QOS
  | [] => none
  | (k', v) :: rest => if k' = k then some v else mapLookup k rest

/-- Go map assignment `m[k] = v`: replace in place, or append when absent. -/
def mapInsert (k : String) (v : QOS) : List (String × QOS) → List (String × QOS)
  | [] => [(k, v)]
  | (k', v') :: rest =>
    if k' = k then (k, v) :: rest else (k', v') :: mapInsert k v rest

/-- Go map `delete(m, k)`: remove every pair with key `k` (a no-op when
the key is absent). -/
def mapErase (k : String) (l : List (String × QOS)) : List (String × QOS) :=
  l.filter (fun kv => kv.1 ≠ k)

/-- Split a topic string into its `/`-separated levels (accumulator form). -/
def splitAcc : List Char → List Char → List String
  | [], acc => [String.mk acc.reverse]
  | c :: cs, acc =>
    if c = '/' then String.mk acc.reverse :: splitAcc cs []
    else splitAcc cs (c :: acc)

/-- Topic levels of a topic or pattern string. -/
def splitTopic (s : String) : List String :=
  splitAcc s.toList []

/-- Modelled from the spec: the subscription matcher (`mqtt.Trie` of
baetyl-go, an external collaborator not under `src/`) "supports wildcard
matching"; a topic pattern is "a string possibly containing wildcards,
matched against concrete event topics".  Standard MQTT matching: `+`
matches exactly one level, a final `#` matches the parent level and any
number of further levels. -/
def matchLevels : List String → List String → Bool
  | [], [] => true
  | ["#"], _ => true
  | p :: ps, t :: ts =>
    if p = "+" then matchLevels ps ts
    else p = t && matchLevels ps ts
  | _, _ => false

/-- Whether pattern `p` matches concrete topic `t`. -/
def mqttMatch (p t : String) : Bool :=
  matchLevels (splitTopic p) (splitTopic t)

/-- Modelled from the spec: the matcher (`mqtt.Trie`) "maps topic patterns
to subscribed QoS levels"; embedded as an association list from pattern
to QoS. -/
abbrev Trie := List (String × QOS)

/-- `Trie.Set(pattern, qos)`: register a pattern at a QoS. -/
def Trie.Set (t : Trie) (p : String) (q : QOS) : Trie :=
  mapInsert p q t

/-- `Trie.Empty(pattern)`: unregister a pattern (no-op when absent). -/
def Trie.Empty (t : Trie) (p : String) : Trie :=
  mapErase p t

/-- `Trie.Match(topic)`: the QoS values of all registered patterns
matching the topic. -/
def Trie.Match (t : Trie) (topic : String) : List QOS :=
  (t.filter (fun pq => mqttMatch pq.1 topic)).map Prod.snd

/-- Modelled from the spec: `mqtt.MatchTopicQOS` (baetyl-go) "returns
whether any subscription matches the topic and, if so, the maximum
matching QoS". -/
def MatchTopicQOS (t : Trie) (topic : String) : Bool × QOS :=
  let qs := Trie.Match t topic
  (!qs.isEmpty, qs.foldl max 0)

example : mqttMatch "a/#" "a/b" = true := by decide
example : mqttMatch "a/#" "a" = true := by decide
example : mqttMatch "a/+" "a/b" = true := by decide
example : mqttMatch "a/b" "a/c" = false := by decide
example : splitTopic "a/b" = ["a", "b"] := by decide

/-- Persisted session identity (`Info` in `session.go`). -/
structure Info where
  ID : String
  WillMessage : Option Message
  Subscriptions : List (String × QOS)
  CleanSession : Bool
deriving DecidableEq, Repr

/-- Runtime state of one session (`Session` in `session.go`), restricted
to the parts the verified operations touch: the `Info`, the private
subscription trie `subs`, this session's bindings in the shared topic
exchange (`manager.exch`, kept as the list of bound topics), the ack
cache's outstanding ids, and the durable record held for this session id
in the manager's session bucket (`stored = none` when no record exists). -/
structure SessionState where
  info : Info
  subs : Trie
  exchBound : List String
  cache : List Nat
  stored : Option Info
deriving DecidableEq, Repr

/-- `exch.Bind(topic, s)`: bind this session to a topic (idempotent, per
the exchange's contract in the spec). -/
def exchBind (l : List String) (topic : String) : List String :=
  if topic ∈ l then l else l ++ [topic]

/-- `exch.Unbind(topic, s)`: remove this session's binding for a topic. -/
def exchUnbind (l : List String) (topic : String) : List String :=
  l.filter (fun t => t ≠ topic)

/-- The action-name constant passed to the authorization callback by
`subscribe` (declared elsewhere in the `session` package). -/
def Subscribe : String := "subscribe"

/-- `persistent()` (`session.go:201`): when `CleanSession` is set, delete
the durable record for this session id; otherwise upsert the full `Info`
under the session id key.  `pfail` models the bucket call returning an
error, which the code only logs: nothing is returned and nothing in
memory is rolled back. -/
def persistent (s : SessionState) (pfail : Bool) : SessionState :=
  if s.info.CleanSession then
    if pfail then s else { s with stored := none }
  else
    if pfail then s else { s with stored := some s.info }

/-- `update(si)` (`session.go:85`): overwrite the will message and the
clean-session flag from `si`, then persist. -/
def update (s : SessionState) (si : Info) (pfail : Bool) : SessionState :=
  persistent
    { s with info :=
        { s.info with WillMessage := si.WillMessage,
                      CleanSession := si.CleanSession } }
    pfail

/-- An inbound event (`*common.Event`): topic and delivery class. -/
structure Event where
  topic : String
  qos : QOS
deriving DecidableEq, Repr

/-- What `Push` did with an event: pushed it to the qos0 (ephemeral)
queue, pushed it to the qos1 (persistent) queue, or invoked the event's
completion callback (`e.Done()`) and returned `nil` without pushing. -/
inductive PushAction where
  | toQos0
  | toQos1
  | dropDone
deriving DecidableEq, Repr

/-- The `for _, q := range qs` loop of `Push` (`session.go:113`): return
`s.qos1.Push(e)` at the first matching QoS above 0, else fall through to
`s.qos0.Push(e)`. -/
def pushLoop : List QOS → PushAction
  | [] => .toQos0
  | q :: rest => if 0 < q then .toQos1 else pushLoop rest

/-- `Push(e)` (`session.go:96`): QoS-0 events always go to the qos0
queue; otherwise the matcher is consulted, an unmatched event is marked
done and dropped, and a match at QoS above 0 routes to the qos1 queue. -/
def Push (s : SessionState) (e : Event) : PushAction :=
  if e.qos = 0 then .toQos0
  else
    let qs := Trie.Match s.subs e.topic
    if qs.length = 0 then .dropDone
    else pushLoop qs

/-- One iteration of the first loop of `subscribe` (`session.go:137`):
`s.subs.Set(topic, qos)`, `s.manager.exch.Bind(topic, s)`,
`s.info.Subscriptions[topic] = qos`. -/
def regStep (s : SessionState) (tq : String × QOS) : SessionState :=
  { s with subs := Trie.Set s.subs tq.1 tq.2,
           exchBound := exchBind s.exchBound tq.1,
           info := { s.info with
             Subscriptions := mapInsert tq.1 tq.2 s.info.Subscriptions } }

/-- The first loop of `subscribe`, over the entries of
`s.info.Subscriptions`. -/
def regLoop (s : SessionState) : List (String × QOS) → SessionState
  | [] => s
  | tq :: rest => regLoop (regStep s tq) rest

/-- One iteration of the second loop of `subscribe` (`session.go:143`):
when an authorization predicate is supplied and rejects the topic,
`s.subs.Empty(topic)`, `s.manager.exch.Unbind(topic, s)`,
`delete(s.info.Subscriptions, topic)`. -/
def authStep (auth : Option (String → String → Bool))
    (s : SessionState) (topic : String) : SessionState :=
  match auth with
  | none => s
  | some a =>
    if a Subscribe topic then s
    else
      { s with subs := Trie.Empty s.subs topic,
               exchBound := exchUnbind s.exchBound topic,
               info := { s.info with
                 Subscriptions := mapErase topic s.info.Subscriptions } }

/-- The second loop of `subscribe`, over the keys of
`s.info.Subscriptions`. -/
def authLoop (auth : Option (String → String → Bool))
    (s : SessionState) : List String → SessionState
  | [] => s
  | t :: rest => authLoop auth (authStep auth s t) rest

/-- `subscribe(subs, auth)` (`session.go:125`): no-op on an empty batch;
otherwise re-register every entry of the current `Info.Subscriptions`
map in the trie and the exchange, then re-check every currently-held
topic against the authorization predicate, then persist.  (The loops
iterate `s.info.Subscriptions`, not the `subsArg` batch.) -/
def subscribe (s : SessionState) (subsArg : List (String × QOS))
    (auth : Option (String → String → Bool)) (pfail : Bool) : SessionState :=
  if subsArg.length = 0 then s
  else
    let s1 := regLoop s s.info.Subscriptions
    let s2 := authLoop auth s1 (s1.info.Subscriptions.map Prod.fst)
    persistent s2 pfail

/-- One iteration of the loop of `unsubscribe` (`session.go:163`). -/
def unsubStep (s : SessionState) (topic : String) : SessionState :=
  { s with subs := Trie.Empty s.subs topic,
           exchBound := exchUnbind s.exchBound topic,
           info := { s.info with
             Subscriptions := mapErase topic s.info.Subscriptions } }

/-- The loop of `unsubscribe`, over the submitted topics. -/
def unsubLoop (s : SessionState) : List String → SessionState
  | [] => s
  | t :: rest => unsubLoop (unsubStep s t) rest

/-- `unsubscribe(topics)` (`session.go:155`): no-op on an empty list;
otherwise unregister each topic from the trie, unbind it from the
exchange, delete it from `Info.Subscriptions`, then persist. -/
def unsubscribe (s : SessionState) (topics : List String)
    (pfail : Bool) : SessionState :=
  if topics.length = 0 then s
  else persistent (unsubLoop s topics) pfail

/-- `matchQOS(topic)` (`session.go:185`): read-only query delegating to
`mqtt.MatchTopicQOS` on the session's trie. -/
def matchQOS (s : SessionState) (topic : String) : Bool × QOS :=
  MatchTopicQOS s.subs topic

/-! ### Example states used by witnesses and counterexamples -/

/-- A fresh non-clean session with no subscriptions. -/
def emptySession : SessionState :=
  { info := { ID := "c", WillMessage := none, Subscriptions := [],
              CleanSession := false },
    subs := [], exchBound := [], cache := [], stored := none }

/-- A session currently subscribed to exactly `x` and `y`, both QoS 0. -/
def sessXY : SessionState :=
  { info := { ID := "c", WillMessage := none,
              Subscriptions := [("x", 0), ("y", 0)],
              CleanSession := false },
    subs := [("x", 0), ("y", 0)], exchBound := ["x", "y"],
    cache := [], stored := none }

/-- A session subscribed to the wildcard `a/#` at QoS 0 and the exact
topic `a/b` at QoS 1. -/
def sessWild : SessionState :=
  { info := { ID := "c", WillMessage := none,
              Subscriptions := [("a/#", 0), ("a/b", 1)],
              CleanSession := false },
    subs := [("a/#", 0), ("a/b", 1)], exchBound := ["a/#", "a/b"],
    cache := [], stored := none }

/-- An authorization predicate rejecting topic `x` and accepting all
other topics. -/
def rejectX : String → String → Bool :=
  fun _ topic => topic != "x"

/-! ### Helper lemmas -/

theorem persistent_info (s : SessionState) (p : Bool) :
    (persistent s p).info = s.info := by
  unfold persistent; split_ifs <;> rfl

theorem persistent_subs (s : SessionState) (p : Bool) :
    (persistent s p).subs = s.subs := by
  unfold persistent; split_ifs <;> rfl

theorem persistent_exchBound (s : SessionState) (p : Bool) :
    (persistent s p).exchBound = s.exchBound := by
  unfold persistent; split_ifs <;> rfl

theorem persistent_cache (s : SessionState) (p : Bool) :
    (persistent s p).cache = s.cache := by
  unfold persistent; split_ifs <;> rfl

theorem pushLoop_mem_pos (qs : List QOS) (q : QOS) (hq : q ∈ qs)
    (hpos : 1 ≤ q) : pushLoop qs = .toQos1 := by
  induction qs with
  | nil => cases hq
  | cons a rest ih =>
    unfold pushLoop
    rcases List.mem_cons.mp hq with h | h
    · subst h; rw [if_pos (Nat.lt_of_lt_of_le Nat.zero_lt_one hpos)]
    · split
      · rfl
      · exact ih h

theorem pushLoop_all_zero (qs : List QOS) (h : ∀ q ∈ qs, q = 0) :
    pushLoop qs = .toQos0 := by
  induction qs with
  | nil => rfl
  | cons a rest ih =>
    unfold pushLoop
    rw [if_neg (by simp [h a (List.mem_cons_self a rest)])]
    exact ih (fun q hq => h q (List.mem_cons_of_mem a hq))

theorem pushLoop_ne_dropDone (qs : List QOS) :
    pushLoop qs ≠ .dropDone := by
  induction qs with
  | nil => simp [pushLoop]
  | cons a rest ih =>
    unfold pushLoop
    split
    · simp
    · exact ih

theorem mapLookup_mapErase_self (t : String) (l : List (String × QOS)) :
    mapLookup t (mapErase t l) = none := by
  induction l with
  | nil => rfl
  | cons kv rest ih =>
    unfold mapErase at *
    simp only [List.filter_cons]
    split
    · next h =>
      have hk : kv.1 ≠ t := by simpa using h
      simpa [mapLookup, hk] using ih
    · exact ih

theorem mapLookup_mapErase_none (t k : String) (l : List (String × QOS))
    (h : mapLookup t l = none) : mapLookup t (mapErase k l) = none := by
  induction l with
  | nil => rfl
  | cons kv rest ih =>
    unfold mapLookup at h
    split at h
    · exact absurd h (by simp)
    · next hne =>
      unfold mapErase at *
      simp only [List.filter_cons]
      split
      · simpa [mapLookup, hne] using ih h
      · exact ih h

theorem mapErase_of_lookup_none (t : String) (l : List (String × QOS))
    (h : mapLookup t l = none) : mapErase t l = l := by
  induction l with
  | nil => rfl
  | cons kv rest ih =>
    unfold mapLookup at h
    split at h
    · exact absurd h (by simp)
    · next hne =>
      unfold mapErase at *
      simp only [List.filter_cons]
      rw [if_pos (by simpa using hne), ih h]

theorem mapErase_idem (t : String) (l : List (String × QOS)) :
    mapErase t (mapErase t l) = mapErase t l :=
  mapErase_of_lookup_none t _ (mapLookup_mapErase_self t l)

theorem exchUnbind_of_not_mem (t : String) (l : List String)
    (h : t ∉ l) : exchUnbind l t = l := by
  unfold exchUnbind
  rw [List.filter_eq_self]
  intro a ha
  simp only [ne_eq, decide_eq_true_eq]
  rintro rfl
  exact h ha

theorem exchUnbind_idem (t : String) (l : List String) :
    exchUnbind (exchUnbind l t) t = exchUnbind l t := by
  refine exchUnbind_of_not_mem t _ ?_
  unfold exchUnbind
  simp [List.mem_filter]

theorem Trie.Match_eq_nil (tr : Trie) (t : String)
    (h : ∀ pq ∈ tr, mqttMatch pq.1 t = false) : Trie.Match tr t = [] := by
  induction tr with
  | nil => rfl
  | cons pq rest ih =>
    have h1 := h pq (List.mem_cons_self pq rest)
    have h2 : ∀ x ∈ rest, mqttMatch x.1 t = false :=
      fun x hx => h x (List.mem_cons_of_mem pq hx)
    unfold Trie.Match at ih ⊢
    simp [List.filter_cons, h1, ih h2]

theorem unsubscribe_single (s : SessionState) (t : String) (p : Bool) :
    unsubscribe s [t] p = persistent (unsubStep s t) p := rfl

theorem unsubLoop_lookup_none (t : String) (ts : List String)
    (s : SessionState) (h : mapLookup t s.subs = none) :
    mapLookup t (unsubLoop s ts).subs = none := by
  induction ts generalizing s with
  | nil => exact h
  | cons t' rest ih =>
    exact ih (unsubStep s t') (mapLookup_mapErase_none t t' s.subs h)

theorem unsubLoop_lookup_mem (t : String) (ts : List String)
    (s : SessionState) (h : t ∈ ts) :
    mapLookup t (unsubLoop s ts).subs = none := by
  induction ts generalizing s with
  | nil => cases h
  | cons t' rest ih =>
    rcases List.mem_cons.mp h with rfl | hmem
    · exact unsubLoop_lookup_none t rest (unsubStep s t)
        (mapLookup_mapErase_self t s.subs)
    · exact ih (unsubStep s t') hmem

/-! ### Claims -/

/-- C1: the spec states that after `subscribe` with a non-empty batch and
no authorization predicate, every submitted (topic, qos) pair is present
in `Info.Subscriptions`, registered in the matcher, and bound in the
exchange.  The code loops over the pre-existing `s.info.Subscriptions`
map instead of the submitted batch, so the submitted pair `("a", 1)` is
recorded nowhere: starting from a session with no subscriptions,
`subscribe([("a", 1)])` leaves the subscription map, the trie and the
exchange bindings empty. -/
theorem C1_subscribe_ignores_batch :
    (subscribe emptySession [("a", 1)] none false).info.Subscriptions = [] ∧
    (subscribe emptySession [("a", 1)] none false).subs = [] ∧
    (subscribe emptySession [("a", 1)] none false).exchBound = [] := by
  decide

/-- C2: the spec states that from subscriptions `{"x":0,"y":0}`, calling
`subscribe([("z",0)])` with a predicate rejecting `x` ends with
`Info.Subscriptions = {"y":0,"z":0}`.  The code never adds the submitted
`("z", 0)` pair (its loops iterate the existing map, not the batch), so
the final state holds exactly `{"y":0}`: `x` is indeed unregistered,
unbound and removed, but `z` is missing everywhere. -/
theorem C2_subscribe_auth_failing_input :
    (subscribe sessXY [("z", 0)] (some rejectX) false).info.Subscriptions
      = [("y", 0)] ∧
    (subscribe sessXY [("z", 0)] (some rejectX) false).subs = [("y", 0)] ∧
    (subscribe sessXY [("z", 0)] (some rejectX) false).exchBound = ["y"] := by
  decide

/-- C3: `subscribe` inspects its batch argument only to test whether it
is empty, so any two non-empty batches, from the same starting state and
with the same authorization predicate and the same persistence outcome,
produce identical final session states (same `Info.Subscriptions`, same
trie, same exchange bindings, same stored record). -/
theorem C3_subscribe_batch_independent (s : SessionState)
    (b1 b2 : List (String × QOS)) (auth : Option (String → String → Bool))
    (p : Bool) (h1 : b1 ≠ []) (h2 : b2 ≠ []) :
    subscribe s b1 auth p = subscribe s b2 auth p := by
  unfold subscribe
  rw [if_neg (fun h => h1 (List.eq_nil_of_length_eq_zero h)),
      if_neg (fun h => h2 (List.eq_nil_of_length_eq_zero h))]

/-- Witness for C3 at concrete batches `[("a", 1)]` and
`[("b", 0), ("c", 2)]`. -/
theorem C3_subscribe_batch_independent_witness :
    subscribe sessXY [("a", 1)] none false
      = subscribe sessXY [("b", 0), ("c", 2)] none false :=
  C3_subscribe_batch_independent sessXY [("a", 1)] [("b", 0), ("c", 2)]
    none false (by decide) (by decide)

/-- C4: for a guaranteed-class event (QoS ≥ 1) whose topic matches at
least one subscription, `Push` routes to the persistent (qos1) queue
when some matching subscription has QoS ≥ 1 and to the ephemeral (qos0)
queue when all matches are QoS 0; the result is always exactly one of
the two pushes (never the drop path, and `PushAction` being a single
value, never both queues). -/
theorem C4_push_guaranteed_routing (s : SessionState) (e : Event)
    (h1 : 1 ≤ e.qos) (h2 : Trie.Match s.subs e.topic ≠ []) :
    ((∃ q ∈ Trie.Match s.subs e.topic, 1 ≤ q) → Push s e = .toQos1) ∧
    ((∀ q ∈ Trie.Match s.subs e.topic, q = 0) → Push s e = .toQos0) ∧
    (Push s e = .toQos1 ∨ Push s e = .toQos0) := by
  have hne : ¬e.qos = 0 := Nat.one_le_iff_ne_zero.mp h1
  have hlen : ¬(Trie.Match s.subs e.topic).length = 0 :=
    fun h => h2 (List.eq_nil_of_length_eq_zero h)
  have hPush : Push s e = pushLoop (Trie.Match s.subs e.topic) := by
    simp only [Push, if_neg hne, if_neg hlen]
  refine ⟨?_, ?_, ?_⟩
  · rintro ⟨q, hq, hq1⟩
    rw [hPush]
    exact pushLoop_mem_pos _ q hq hq1
  · intro hall
    rw [hPush]
    exact pushLoop_all_zero _ hall
  · rw [hPush]
    cases hres : pushLoop (Trie.Match s.subs e.topic) with
    | toQos0 => exact Or.inr rfl
    | toQos1 => exact Or.inl rfl
    | dropDone => exact absurd hres (pushLoop_ne_dropDone _)

/-- Witness for C4: subscriptions `{"a/#": 0, "a/b": 1}` and an event on
`a/b` with QoS 1 (both matcher QoS values 0 and 1 match). -/
theorem C4_push_guaranteed_routing_witness :
    ((∃ q ∈ Trie.Match sessWild.subs (Event.mk "a/b" 1).topic, 1 ≤ q) →
      Push sessWild (Event.mk "a/b" 1) = .toQos1) ∧
    ((∀ q ∈ Trie.Match sessWild.subs (Event.mk "a/b" 1).topic, q = 0) →
      Push sessWild (Event.mk "a/b" 1) = .toQos0) ∧
    (Push sessWild (Event.mk "a/b" 1) = .toQos1 ∨
      Push sessWild (Event.mk "a/b" 1) = .toQos0) :=
  C4_push_guaranteed_routing sessWild (Event.mk "a/b" 1)
    (by decide) (by decide)

/-- C5: a guaranteed-class event whose topic matches no subscription is
dropped: `Push` takes the path that invokes the event's completion
callback (`e.Done()`), pushes to neither queue, and returns `nil` —
`PushAction.dropDone` encodes exactly that path of `session.go:107`. -/
theorem C5_push_unmatched_dropped (s : SessionState) (e : Event)
    (h1 : 1 ≤ e.qos) (h2 : Trie.Match s.subs e.topic = []) :
    Push s e = .dropDone := by
  have hne : ¬e.qos = 0 := Nat.one_le_iff_ne_zero.mp h1
  simp [Push, hne, h2]

/-- Witness for C5: a QoS-1 event on topic `t` against a session with no
subscriptions. -/
theorem C5_push_unmatched_dropped_witness :
    Push emptySession (Event.mk "t" 1) = .dropDone :=
  C5_push_unmatched_dropped emptySession (Event.mk "t" 1)
    (by decide) (by decide)

/-- C6: a best-effort event (QoS 0) is routed to the ephemeral (qos0)
queue unconditionally; since this holds for every session state, it
holds regardless of the trie's contents — the matcher is never
consulted. -/
theorem C6_push_qos0_unconditional (s : SessionState) (e : Event)
    (h : e.qos = 0) : Push s e = .toQos0 := by
  simp [Push, h]

/-- Witness for C6: a QoS-0 event on topic `t` against a session holding
a guaranteed-class (QoS 1) subscription on that same topic. -/
theorem C6_push_qos0_unconditional_witness :
    Push { emptySession with subs := [("t", 1)] } (Event.mk "t" 0)
      = .toQos0 :=
  C6_push_qos0_unconditional { emptySession with subs := [("t", 1)] }
    (Event.mk "t" 0) (by decide)

/-- C7 counterexample: the claim asserts `matchQOS` returns "no match"
for every unsubscribed topic even "when other still-registered wildcard
patterns exist".  From subscriptions `{"a/#": 0, "a/b": 1}`, after
`unsubscribe(["a/b"])` the still-registered wildcard `a/#` matches
`a/b`, so `matchQOS("a/b")` returns a match (`true`, max QoS 0) — not
"no match". -/
theorem C7_wildcard_counterexample :
    matchQOS (unsubscribe sessWild ["a/b"] false) "a/b" = (true, 0) := by
  decide

/-- C7 amended: after `unsubscribe(topics)`, each topic in `topics` is
removed from the trie as a registered pattern, and `matchQOS(t)` returns
"no match" for `t ∈ topics` provided no still-registered pattern
(wildcard or exact) matches `t`. -/
theorem C7_unsubscribe_no_match (s : SessionState) (topics : List String)
    (t : String) (p : Bool) (h1 : topics ≠ []) (h2 : t ∈ topics)
    (h3 : ∀ pq ∈ (unsubscribe s topics p).subs, mqttMatch pq.1 t = false) :
    mapLookup t (unsubscribe s topics p).subs = none ∧
    (matchQOS (unsubscribe s topics p) t).1 = false := by
  have hsubs : (unsubscribe s topics p).subs = (unsubLoop s topics).subs := by
    unfold unsubscribe
    rw [if_neg (fun h => h1 (List.eq_nil_of_length_eq_zero h)),
        persistent_subs]
  constructor
  · rw [hsubs]
    exact unsubLoop_lookup_mem t topics s h2
  · have hnil : Trie.Match (unsubscribe s topics p).subs t = [] :=
      Trie.Match_eq_nil _ t h3
    simp [matchQOS, MatchTopicQOS, hnil]

/-- Witness for C7 amended: unsubscribing both `a/b` and `a/#` from the
wildcard session leaves no pattern matching `a/b`. -/
theorem C7_unsubscribe_no_match_witness :
    mapLookup "a/b" (unsubscribe sessWild ["a/b", "a/#"] false).subs
      = none ∧
    (matchQOS (unsubscribe sessWild ["a/b", "a/#"] false) "a/b").1
      = false :=
  C7_unsubscribe_no_match sessWild ["a/b", "a/#"] "a/b" false
    (by decide) (by decide) (by decide)

/-- C8: `unsubscribe` is idempotent — running it twice on the same
single-topic list gives the same final state (including the stored
record) as running it once, for every persistence outcome `p`; and
unsubscribing a topic that is nowhere subscribed leaves the
subscription map, the trie and the exchange bindings unchanged. -/
theorem C8_unsubscribe_idempotent (s : SessionState) (t : String)
    (p : Bool) :
    unsubscribe (unsubscribe s [t] p) [t] p = unsubscribe s [t] p ∧
    (mapLookup t s.info.Subscriptions = none →
     mapLookup t s.subs = none →
     t ∉ s.exchBound →
     (unsubscribe s [t] p).info.Subscriptions = s.info.Subscriptions ∧
     (unsubscribe s [t] p).subs = s.subs ∧
     (unsubscribe s [t] p).exchBound = s.exchBound) := by
  constructor
  · rw [unsubscribe_single, unsubscribe_single]
    rcases s with ⟨⟨id, will, subsMap, clean⟩, subsT, exch, cache, stored⟩
    unfold unsubStep persistent Trie.Empty
    cases clean <;> cases p <;>
      simp [mapErase_idem, exchUnbind_idem]
  · intro h1 h2 h3
    rw [unsubscribe_single]
    refine ⟨?_, ?_, ?_⟩
    · rw [persistent_info]
      exact mapErase_of_lookup_none t _ h1
    · rw [persistent_subs]
      exact mapErase_of_lookup_none t _ h2
    · rw [persistent_exchBound]
      exact exchUnbind_of_not_mem t _ h3

/-- Witness for C8: unsubscribing the never-subscribed topic `q` from
the `{"x":0,"y":0}` session, twice versus once, and the frame on its
subscription state. -/
theorem C8_unsubscribe_idempotent_witness :
    (unsubscribe (unsubscribe sessXY ["q"] false) ["q"] false
      = unsubscribe sessXY ["q"] false) ∧
    ((unsubscribe sessXY ["q"] false).info.Subscriptions
        = sessXY.info.Subscriptions ∧
     (unsubscribe sessXY ["q"] false).subs = sessXY.subs ∧
     (unsubscribe sessXY ["q"] false).exchBound = sessXY.exchBound) :=
  ⟨(C8_unsubscribe_idempotent sessXY "q" false).1,
   (C8_unsubscribe_idempotent sessXY "q" false).2
     (by decide) (by decide) (by decide)⟩

/-- C9: `persistent()` deletes the durable record when `CleanSession` is
set and otherwise upserts the full `Info` under the session id; it
returns nothing, and on a storage failure (`pfail = true`, only logged
by the code) the whole state — in particular the in-memory `Info` — is
left exactly as it was: no rollback, no propagated error. -/
theorem C9_persistent_behavior (s : SessionState) :
    (persistent s false).stored
      = (if s.info.CleanSession then none else some s.info) ∧
    (∀ p, (persistent s p).info = s.info) ∧
    persistent s true = s := by
  refine ⟨?_, fun p => persistent_info s p, ?_⟩
  · cases hc : s.info.CleanSession <;> simp [persistent, hc]
  · cases hc : s.info.CleanSession <;> simp [persistent, hc]

/-- C10: `update(si)` overwrites exactly the will message and the
clean-session flag and then persists the result; the session id, the
subscription map, the trie, the ack cache and the exchange bindings are
all unchanged, and the stored record is the persisted new `Info` (or a
deletion when the new flag is set, or untouched when the write fails). -/
theorem C10_update_frame (s : SessionState) (si : Info) (p : Bool) :
    (update s si p).info.WillMessage = si.WillMessage ∧
    (update s si p).info.CleanSession = si.CleanSession ∧
    (update s si p).info.ID = s.info.ID ∧
    (update s si p).info.Subscriptions = s.info.Subscriptions ∧
    (update s si p).subs = s.subs ∧
    (update s si p).cache = s.cache ∧
    (update s si p).exchBound = s.exchBound ∧
    (update s si p).stored
      = (if p then s.stored
         else if si.CleanSession then none
         else some { s.info with
           WillMessage := si.WillMessage,
           CleanSession := si.CleanSession }) := by
  unfold update persistent
  rcases s with ⟨⟨id, will, subsMap, clean⟩, subsT, exch, cache, stored⟩
  cases p <;> cases hsi : si.CleanSession <;> simp [hsi]

end Session
